import Mathlib

/-!
Verification development for `benchmark.py` (DynamicFS performance
comparison: replication vs erasure coding).

The Python module is pure closed-form arithmetic over ints and floats.
We embed it over `ℚ`: int arithmetic embeds exactly, and every float
operation in the source is a field operation on exactly-represented
constants.  Python's true division raises `ZeroDivisionError` on a zero
divisor; we mirror that with `pydiv`, returning `Except String ℚ`, so
fallible code paths (divisions whose divisor can be zero) are explicit.
-/

namespace Benchmark

/-- The `RedundancyType` enum of the source. -/
inductive RedundancyType
  | REPLICATION
  | ERASURE_CODING
  deriving DecidableEq, Repr

/-- The `PerformanceMetrics` dataclass: metrics for a single redundancy
strategy. -/
structure PerformanceMetrics where
  redundancy_type : RedundancyType
  data_size_gb : ℤ
  storage_overhead : ℚ
  write_latency_ms : ℚ
  read_latency_ms : ℚ
  encode_cpu_percent : ℚ
  decode_cpu_percent : ℚ
  network_io_gb : ℚ
  rebuild_time_seconds : ℚ
  monthly_cost_dollars : ℚ
  failure_tolerance : ℤ
  deriving DecidableEq, Repr

/-- The class-level constants of `PerformanceBenchmark`.  The source keeps
them as class attributes; Python lets a caller rebind them, so we pass the
constant set explicitly and instantiate it with the defaults below. -/
structure Config where
  DISK_BANDWIDTH_MBPS : ℚ
  NETWORK_BANDWIDTH_MBPS : ℚ
  REED_SOLOMON_DECODE_RATE : ℚ
  DISK_FAILURE_RATE : ℚ
  STORAGE_COST_PER_TB_MONTH : ℚ
  deriving DecidableEq, Repr

/-- The constant values hard-coded in the class body of
`PerformanceBenchmark`. -/
def defaultConfig : Config where
  DISK_BANDWIDTH_MBPS := 100
  NETWORK_BANDWIDTH_MBPS := 5000
  REED_SOLOMON_DECODE_RATE := 50
  DISK_FAILURE_RATE := 1 / 100
  STORAGE_COST_PER_TB_MONTH := 10

/-- Python's true division: raises `ZeroDivisionError` when the divisor is
zero, otherwise returns the exact quotient. -/
def pydiv (a b : ℚ) : Except String ℚ :=
  if b = 0 then Except.error "division by zero" else Except.ok (a / b)

/-- `PerformanceBenchmark.benchmark_replication`: replication (3x copies). -/
def benchmark_replication (cfg : Config) (data_size_gb : ℤ) :
    Except String PerformanceMetrics := do
  let data_size_mb : ℚ := (data_size_gb : ℚ) * 1024
  let write_latency_ms := (← pydiv data_size_mb cfg.DISK_BANDWIDTH_MBPS) * 1.5
  let read_latency_ms := (← pydiv data_size_mb cfg.DISK_BANDWIDTH_MBPS) * 1.1
  let encode_cpu : ℚ := 0.5
  let decode_cpu : ℚ := 0.5
  let network_io_gb : ℚ := (data_size_gb : ℚ) * 3
  let rebuild_time := (← pydiv data_size_mb cfg.DISK_BANDWIDTH_MBPS) * 1.2
  let storage_gb : ℚ := (data_size_gb : ℚ) * 3
  let monthly_cost := (← pydiv storage_gb 1024) * cfg.STORAGE_COST_PER_TB_MONTH
  return { redundancy_type := RedundancyType.REPLICATION
           data_size_gb := data_size_gb
           storage_overhead := 3.0
           write_latency_ms := write_latency_ms
           read_latency_ms := read_latency_ms
           encode_cpu_percent := encode_cpu
           decode_cpu_percent := decode_cpu
           network_io_gb := network_io_gb
           rebuild_time_seconds := rebuild_time
           monthly_cost_dollars := monthly_cost
           failure_tolerance := 2 }

/-- `PerformanceBenchmark.benchmark_erasure_coding`: erasure coding (4+2). -/
def benchmark_erasure_coding (cfg : Config) (data_size_gb : ℤ) :
    Except String PerformanceMetrics := do
  let data_size_mb : ℚ := (data_size_gb : ℚ) * 1024
  let encode_time_ms ← pydiv data_size_mb cfg.REED_SOLOMON_DECODE_RATE
  let write_latency_ms :=
    (← pydiv data_size_mb (cfg.DISK_BANDWIDTH_MBPS / 1.5)) + encode_time_ms
  let decode_time_ms ← pydiv data_size_mb cfg.REED_SOLOMON_DECODE_RATE
  let read_latency_ms :=
    (← pydiv data_size_mb (cfg.DISK_BANDWIDTH_MBPS * 2)) + decode_time_ms
  let encode_cpu : ℚ := 15.0
  let decode_cpu : ℚ := 12.0
  let network_io_gb : ℚ := (data_size_gb : ℚ) * 1.5
  let rebuild_time :=
    (← pydiv data_size_mb cfg.REED_SOLOMON_DECODE_RATE) * 2 + 50
  let storage_gb : ℚ := (data_size_gb : ℚ) * 1.5
  let monthly_cost := (← pydiv storage_gb 1024) * cfg.STORAGE_COST_PER_TB_MONTH
  return { redundancy_type := RedundancyType.ERASURE_CODING
           data_size_gb := data_size_gb
           storage_overhead := 1.5
           write_latency_ms := write_latency_ms
           read_latency_ms := read_latency_ms
           encode_cpu_percent := encode_cpu
           decode_cpu_percent := decode_cpu
           network_io_gb := network_io_gb
           rebuild_time_seconds := rebuild_time / 1000.0
           monthly_cost_dollars := monthly_cost
           failure_tolerance := 2 }

/-- The numeric quantities computed by `compare_metrics` for the comparison
section of the report (the string assembly around them carries no further
computation), in the source's evaluation order. -/
structure ComparisonStats where
  storage_eff : ℚ
  monthly_savings : ℚ
  annual_savings : ℚ
  write_speedup : ℚ
  read_speedup : ℚ
  encode_cpu_over : ℚ
  decode_cpu_over : ℚ
  write_delta : ℚ
  read_delta : ℚ
  network_eff : ℚ
  network_delta : ℚ
  rebuild_speedup : ℚ
  rebuild_delta : ℚ
  deriving DecidableEq, Repr

/-- `PerformanceBenchmark.compare_metrics`: run both estimators for one
size and compute the comparison quantities, in the order the source
evaluates them. -/
def compare_metrics (cfg : Config) (data_size_gb : ℤ) :
    Except String ComparisonStats := do
  let repl ← benchmark_replication cfg data_size_gb
  let ec ← benchmark_erasure_coding cfg data_size_gb
  let storage_eff ← pydiv repl.storage_overhead ec.storage_overhead
  let monthly_savings := repl.monthly_cost_dollars - ec.monthly_cost_dollars
  let annual_savings := monthly_savings * 12
  let write_speedup ← pydiv repl.write_latency_ms ec.write_latency_ms
  let read_speedup ← pydiv repl.read_latency_ms ec.read_latency_ms
  let encode_cpu_over ← pydiv ec.encode_cpu_percent repl.encode_cpu_percent
  let decode_cpu_over ← pydiv ec.decode_cpu_percent repl.decode_cpu_percent
  let network_eff ← pydiv repl.network_io_gb ec.network_io_gb
  let rebuild_speedup ← pydiv repl.rebuild_time_seconds ec.rebuild_time_seconds
  return { storage_eff := storage_eff
           monthly_savings := monthly_savings
           annual_savings := annual_savings
           write_speedup := write_speedup
           read_speedup := read_speedup
           encode_cpu_over := encode_cpu_over
           decode_cpu_over := decode_cpu_over
           write_delta := ec.write_latency_ms - repl.write_latency_ms
           read_delta := ec.read_latency_ms - repl.read_latency_ms
           network_eff := network_eff
           network_delta := repl.network_io_gb - ec.network_io_gb
           rebuild_speedup := rebuild_speedup
           rebuild_delta :=
             repl.rebuild_time_seconds - ec.rebuild_time_seconds }

/-- The annual 1PB cost projection computed inline in `main` (lines
218-229): annual cost per strategy from the monthly cost at 1 GB, the
savings, and the savings percentage printed by the driver. -/
def annual_cost_analysis (cfg : Config) :
    Except String (ℚ × ℚ × ℚ × ℚ) := do
  let repl_1pb ← benchmark_replication cfg 1
  let ec_1pb ← benchmark_erasure_coding cfg 1
  let repl_annual := repl_1pb.monthly_cost_dollars * 1000 * 12
  let ec_annual := ec_1pb.monthly_cost_dollars * 1000 * 12
  let savings := repl_annual - ec_annual
  let pct ← pydiv savings repl_annual
  return (repl_annual, ec_annual, savings, pct * 100)

/-- Closed form of the replication record under the default constants;
`benchmark_replication defaultConfig` provably returns it. -/
def replSpec (s : ℤ) : PerformanceMetrics where
  redundancy_type := RedundancyType.REPLICATION
  data_size_gb := s
  storage_overhead := 3.0
  write_latency_ms := (s : ℚ) * 1024 / 100 * 1.5
  read_latency_ms := (s : ℚ) * 1024 / 100 * 1.1
  encode_cpu_percent := 0.5
  decode_cpu_percent := 0.5
  network_io_gb := (s : ℚ) * 3
  rebuild_time_seconds := (s : ℚ) * 1024 / 100 * 1.2
  monthly_cost_dollars := (s : ℚ) * 3 / 1024 * 10
  failure_tolerance := 2

/-- Closed form of the erasure-coding record under the default constants;
`benchmark_erasure_coding defaultConfig` provably returns it. -/
def ecSpec (s : ℤ) : PerformanceMetrics where
  redundancy_type := RedundancyType.ERASURE_CODING
  data_size_gb := s
  storage_overhead := 1.5
  write_latency_ms := (s : ℚ) * 1024 / (100 / 1.5) + (s : ℚ) * 1024 / 50
  read_latency_ms := (s : ℚ) * 1024 / (100 * 2) + (s : ℚ) * 1024 / 50
  encode_cpu_percent := 15.0
  decode_cpu_percent := 12.0
  network_io_gb := (s : ℚ) * 1.5
  rebuild_time_seconds := ((s : ℚ) * 1024 / 50 * 2 + 50) / 1000
  monthly_cost_dollars := (s : ℚ) * 1.5 / 1024 * 10
  failure_tolerance := 2

lemma benchmark_replication_default_eq (s : ℤ) :
    benchmark_replication defaultConfig s = Except.ok (replSpec s) := rfl

lemma benchmark_erasure_coding_default_eq (s : ℤ) :
    benchmark_erasure_coding defaultConfig s = Except.ok (ecSpec s) := by
  simp only [benchmark_erasure_coding, defaultConfig, pydiv, bind, Except.bind, pure,
    Except.pure]
  norm_num [ecSpec]

/-- C1: the source performs no configuration-time validation of its rate
constants.  Setting a rate constant to zero is accepted, and the zero
propagates into the estimator, which then fails with a division-by-zero
error at call time — not with a configuration error at configuration
time as the spec requires. -/
theorem C1_zero_rate_not_rejected :
    benchmark_erasure_coding
        { defaultConfig with REED_SOLOMON_DECODE_RATE := 0 } 1 =
      Except.error "division by zero" ∧
    benchmark_replication
        { defaultConfig with DISK_BANDWIDTH_MBPS := 0 } 1 =
      Except.error "division by zero" := ⟨rfl, rfl⟩

/-- C2: for every non-negative size, the erasure-coding record's
`rebuild_time_seconds` equals `((size * 1024) / decode_rate * 2 + 50) / 1000`
with the default decode rate 50, the `+ 50` being added before the
division by 1000. -/
theorem C2_ec_rebuild_formula (s : ℤ) (h : 0 ≤ s) :
    (benchmark_erasure_coding defaultConfig s).map
        PerformanceMetrics.rebuild_time_seconds =
      Except.ok (((s : ℚ) * 1024 / 50 * 2 + 50) / 1000) := by
  simp [benchmark_erasure_coding_default_eq, Except.map, ecSpec]

/-- Witness for C2 at size 4. -/
theorem C2_ec_rebuild_formula_witness :
    (benchmark_erasure_coding defaultConfig 4).map
        PerformanceMetrics.rebuild_time_seconds =
      Except.ok ((((4 : ℤ) : ℚ) * 1024 / 50 * 2 + 50) / 1000) :=
  C2_ec_rebuild_formula 4 (by decide)

/-- C3: for every positive size, replication's `network_io_gb` divided by
erasure coding's `network_io_gb` is exactly 2. -/
theorem C3_network_quotient (s : ℤ) (h : 0 < s) :
    ∀ mr me, benchmark_replication defaultConfig s = Except.ok mr →
      benchmark_erasure_coding defaultConfig s = Except.ok me →
      mr.network_io_gb / me.network_io_gb = 2 := by
  intro mr me hr he
  rw [benchmark_replication_default_eq] at hr
  rw [benchmark_erasure_coding_default_eq] at he
  obtain rfl := Except.ok.inj hr
  obtain rfl := Except.ok.inj he
  have hs : (0 : ℚ) < (s : ℚ) := by exact_mod_cast h
  simp only [replSpec, ecSpec]
  rw [div_eq_iff (by positivity)]
  ring

/-- Witness for C3 at size 1. -/
theorem C3_network_quotient_witness :
    (replSpec 1).network_io_gb / (ecSpec 1).network_io_gb = 2 :=
  C3_network_quotient 1 (by decide) (replSpec 1) (ecSpec 1)
    (benchmark_replication_default_eq 1) (benchmark_erasure_coding_default_eq 1)

/-- C4: the replication record's formulas, for every non-negative size:
write latency `mb / 100 * 1.5`, read latency `mb / 100 * 1.1`, encode and
decode CPU `0.5`, network `size * 3`, rebuild `mb / 100 * 1.2`, monthly
cost `size * 3 / 1024 * 10`; size 0 yields all-zero latencies and cost. -/
theorem C4_replication_formulas (s : ℤ) (h : 0 ≤ s) :
    ∀ m, benchmark_replication defaultConfig s = Except.ok m →
      m.write_latency_ms = (s : ℚ) * 1024 / 100 * 1.5 ∧
      m.read_latency_ms = (s : ℚ) * 1024 / 100 * 1.1 ∧
      m.encode_cpu_percent = 0.5 ∧
      m.decode_cpu_percent = 0.5 ∧
      m.network_io_gb = (s : ℚ) * 3 ∧
      m.rebuild_time_seconds = (s : ℚ) * 1024 / 100 * 1.2 ∧
      m.monthly_cost_dollars = (s : ℚ) * 3 / 1024 * 10 ∧
      (s = 0 → m.write_latency_ms = 0 ∧ m.read_latency_ms = 0 ∧
        m.monthly_cost_dollars = 0) := by
  intro m hm
  rw [benchmark_replication_default_eq] at hm
  obtain rfl := Except.ok.inj hm
  refine ⟨rfl, rfl, rfl, rfl, rfl, rfl, rfl, ?_⟩
  rintro rfl
  norm_num [replSpec]

/-- Witness for C4 at size 0. -/
theorem C4_replication_formulas_witness :
    (replSpec 0).write_latency_ms = ((0 : ℤ) : ℚ) * 1024 / 100 * 1.5 ∧
    (replSpec 0).read_latency_ms = ((0 : ℤ) : ℚ) * 1024 / 100 * 1.1 ∧
    (replSpec 0).encode_cpu_percent = 0.5 ∧
    (replSpec 0).decode_cpu_percent = 0.5 ∧
    (replSpec 0).network_io_gb = ((0 : ℤ) : ℚ) * 3 ∧
    (replSpec 0).rebuild_time_seconds = ((0 : ℤ) : ℚ) * 1024 / 100 * 1.2 ∧
    (replSpec 0).monthly_cost_dollars = ((0 : ℤ) : ℚ) * 3 / 1024 * 10 ∧
    ((0 : ℤ) = 0 → (replSpec 0).write_latency_ms = 0 ∧
      (replSpec 0).read_latency_ms = 0 ∧
      (replSpec 0).monthly_cost_dollars = 0) :=
  C4_replication_formulas 0 (by decide) (replSpec 0)
    (benchmark_replication_default_eq 0)

/-- C5: the driver's annual 1PB projection equals each strategy's monthly
cost at 1 GB times 1000 times 12 (replication 5625/16 = 351.5625 dollars,
erasure coding 5625/32 = 175.78125), the savings are their difference, and
the savings percentage is 50, strictly between 0 and 100. -/
theorem C5_annual_projection :
    (benchmark_replication defaultConfig 1).map
        (fun m => m.monthly_cost_dollars * 1000 * 12) =
      Except.ok (5625 / 16) ∧
    (benchmark_erasure_coding defaultConfig 1).map
        (fun m => m.monthly_cost_dollars * 1000 * 12) =
      Except.ok (5625 / 32) ∧
    annual_cost_analysis defaultConfig =
      Except.ok (5625 / 16, 5625 / 32, 5625 / 16 - 5625 / 32, 50) ∧
    (0 : ℚ) < 50 ∧ (50 : ℚ) < 100 := by
  refine ⟨?_, ?_, ?_, by norm_num, by norm_num⟩
  · simp [benchmark_replication_default_eq, Except.map, replSpec]
    norm_num
  · simp [benchmark_erasure_coding_default_eq, Except.map, ecSpec]
    norm_num
  · simp [annual_cost_analysis, benchmark_replication_default_eq,
      benchmark_erasure_coding_default_eq, replSpec, ecSpec, pydiv,
      bind, Except.bind, pure, Except.pure]
    norm_num

/-- C6: for both strategies, write latency, read latency, network I/O and
monthly cost are monotone in the dataset size. -/
theorem C6_monotone (a b : ℤ) (ha : 0 ≤ a) (hab : a ≤ b) :
    ∀ ra rb ea eb,
      benchmark_replication defaultConfig a = Except.ok ra →
      benchmark_replication defaultConfig b = Except.ok rb →
      benchmark_erasure_coding defaultConfig a = Except.ok ea →
      benchmark_erasure_coding defaultConfig b = Except.ok eb →
      ra.write_latency_ms ≤ rb.write_latency_ms ∧
      ra.read_latency_ms ≤ rb.read_latency_ms ∧
      ra.network_io_gb ≤ rb.network_io_gb ∧
      ra.monthly_cost_dollars ≤ rb.monthly_cost_dollars ∧
      ea.write_latency_ms ≤ eb.write_latency_ms ∧
      ea.read_latency_ms ≤ eb.read_latency_ms ∧
      ea.network_io_gb ≤ eb.network_io_gb ∧
      ea.monthly_cost_dollars ≤ eb.monthly_cost_dollars := by
  intro ra rb ea eb h1 h2 h3 h4
  rw [benchmark_replication_default_eq] at h1 h2
  rw [benchmark_erasure_coding_default_eq] at h3 h4
  obtain rfl := Except.ok.inj h1
  obtain rfl := Except.ok.inj h2
  obtain rfl := Except.ok.inj h3
  obtain rfl := Except.ok.inj h4
  have hq : (a : ℚ) ≤ (b : ℚ) := by exact_mod_cast hab
  simp only [replSpec, ecSpec]
  refine ⟨?_, ?_, ?_, ?_, ?_, ?_, ?_, ?_⟩ <;> nlinarith [hq]

/-- Witness for C6 at sizes 2 and 5. -/
theorem C6_monotone_witness :
    (replSpec 2).write_latency_ms ≤ (replSpec 5).write_latency_ms ∧
    (replSpec 2).read_latency_ms ≤ (replSpec 5).read_latency_ms ∧
    (replSpec 2).network_io_gb ≤ (replSpec 5).network_io_gb ∧
    (replSpec 2).monthly_cost_dollars ≤ (replSpec 5).monthly_cost_dollars ∧
    (ecSpec 2).write_latency_ms ≤ (ecSpec 5).write_latency_ms ∧
    (ecSpec 2).read_latency_ms ≤ (ecSpec 5).read_latency_ms ∧
    (ecSpec 2).network_io_gb ≤ (ecSpec 5).network_io_gb ∧
    (ecSpec 2).monthly_cost_dollars ≤ (ecSpec 5).monthly_cost_dollars :=
  C6_monotone 2 5 (by decide) (by decide) (replSpec 2) (replSpec 5)
    (ecSpec 2) (ecSpec 5)
    (benchmark_replication_default_eq 2) (benchmark_replication_default_eq 5)
    (benchmark_erasure_coding_default_eq 2) (benchmark_erasure_coding_default_eq 5)

/-- C7: for every non-negative size, replication returns storage overhead
3.0 and failure tolerance 2; erasure coding returns storage overhead 1.5
and failure tolerance 2. -/
theorem C7_constant_fields (s : ℤ) (h : 0 ≤ s) :
    (benchmark_replication defaultConfig s).map
        PerformanceMetrics.storage_overhead = Except.ok 3 ∧
    (benchmark_replication defaultConfig s).map
        PerformanceMetrics.failure_tolerance = Except.ok 2 ∧
    (benchmark_erasure_coding defaultConfig s).map
        PerformanceMetrics.storage_overhead = Except.ok 1.5 ∧
    (benchmark_erasure_coding defaultConfig s).map
        PerformanceMetrics.failure_tolerance = Except.ok 2 := by
  refine ⟨?_, ?_, ?_, ?_⟩ <;>
    simp [benchmark_replication_default_eq, benchmark_erasure_coding_default_eq,
      Except.map, replSpec, ecSpec] <;> norm_num

/-- Witness for C7 at size 5. -/
theorem C7_constant_fields_witness :
    (benchmark_replication defaultConfig 5).map
        PerformanceMetrics.storage_overhead = Except.ok 3 ∧
    (benchmark_replication defaultConfig 5).map
        PerformanceMetrics.failure_tolerance = Except.ok 2 ∧
    (benchmark_erasure_coding defaultConfig 5).map
        PerformanceMetrics.storage_overhead = Except.ok 1.5 ∧
    (benchmark_erasure_coding defaultConfig 5).map
        PerformanceMetrics.failure_tolerance = Except.ok 2 :=
  C7_constant_fields 5 (by decide)

/-- C8: each estimator is deterministic — the result depends only on the
size and the fixed constants, so two calls with equal sizes return
identical records. -/
theorem C8_deterministic (s t : ℤ) (hs : 0 ≤ s) (hst : s = t) :
    benchmark_replication defaultConfig s =
      benchmark_replication defaultConfig t ∧
    benchmark_erasure_coding defaultConfig s =
      benchmark_erasure_coding defaultConfig t := by
  subst hst
  exact ⟨rfl, rfl⟩

/-- Witness for C8 at size 7. -/
theorem C8_deterministic_witness :
    benchmark_replication defaultConfig 7 =
      benchmark_replication defaultConfig 7 ∧
    benchmark_erasure_coding defaultConfig 7 =
      benchmark_erasure_coding defaultConfig 7 :=
  C8_deterministic 7 7 (by decide) rfl

/-- C9: at size 0 both write latencies are 0, so `compare_metrics`
divides 0.0 by 0.0 when forming the write performance quotient and fails
with a division-by-zero error instead of returning a report. -/
theorem C9_compare_metrics_size_zero :
    (benchmark_replication defaultConfig 0).map
        PerformanceMetrics.write_latency_ms = Except.ok 0 ∧
    (benchmark_erasure_coding defaultConfig 0).map
        PerformanceMetrics.write_latency_ms = Except.ok 0 ∧
    compare_metrics defaultConfig 0 = Except.error "division by zero" := by
  refine ⟨?_, ?_, ?_⟩
  · simp [benchmark_replication_default_eq, Except.map, replSpec]
  · simp [benchmark_erasure_coding_default_eq, Except.map, ecSpec]
  · simp [compare_metrics, benchmark_replication_default_eq,
      benchmark_erasure_coding_default_eq, replSpec, ecSpec, pydiv,
      bind, Except.bind, pure, Except.pure]
    norm_num

/-- C10: at size 0 the erasure-coding record is not all zero: rebuild
time is 0.05 seconds while its latencies, network I/O and monthly cost
are 0; replication's size-0 rebuild time is 0. -/
theorem C10_ec_size_zero :
    (benchmark_erasure_coding defaultConfig 0).map
        PerformanceMetrics.rebuild_time_seconds = Except.ok 0.05 ∧
    (benchmark_erasure_coding defaultConfig 0).map
        PerformanceMetrics.write_latency_ms = Except.ok 0 ∧
    (benchmark_erasure_coding defaultConfig 0).map
        PerformanceMetrics.read_latency_ms = Except.ok 0 ∧
    (benchmark_erasure_coding defaultConfig 0).map
        PerformanceMetrics.network_io_gb = Except.ok 0 ∧
    (benchmark_erasure_coding defaultConfig 0).map
        PerformanceMetrics.monthly_cost_dollars = Except.ok 0 ∧
    (benchmark_replication defaultConfig 0).map
        PerformanceMetrics.rebuild_time_seconds = Except.ok 0 := by
  refine ⟨?_, ?_, ?_, ?_, ?_, ?_⟩ <;>
    simp [benchmark_replication_default_eq, benchmark_erasure_coding_default_eq,
      Except.map, replSpec, ecSpec] <;> norm_num

end Benchmark
